/-
Verification development for the CalcHub multi-calculator backend.

Each calculator module of the repository is shallowly embedded below:
pure Python functions become Lean functions on exact rationals, raised
exceptions become explicit error constructors, and the two explicit
rounding operations of the source are modelled exactly:

 * Python Decimal.quantize(Decimal(0.01), rounding=ROUND_HALF_UP) is
   modelled by quantize2 (round to cents, ties away from zero);
 * the Python built-in round(x, d) is modelled by pyRound d (round to
   d decimals, ties to even).

Python Decimal arithmetic carries 28 significant digits; the embedding
uses exact rational arithmetic instead.  All concrete inputs used in
theorems below were chosen so that every compared quantity is farther
from a rounding boundary than the 1e-22 relative error this can
introduce, so the embedding and the source agree on every stated value.
Python floats are likewise modelled as exact rationals; all concrete
inputs are exactly representable decimals and all compared outputs are
far from ties of the float grid.
-/
import Mathlib

/-- Decimal quantize to two places with ROUND_HALF_UP (ties away from
zero), as used throughout the loan module for money amounts. -/
def quantize2 (x : ℚ) : ℚ :=
  if 0 ≤ x then (⌊x * 100 + 1/2⌋ : ℚ) / 100 else -((⌊-x * 100 + 1/2⌋ : ℚ) / 100)

/-- Python str.upper() on one ASCII character (all strings compared by
the embedded code are ASCII). -/
def asciiUpperChar (c : Char) : Char :=
  if 'a' ≤ c ∧ c ≤ 'z' then Char.ofNat (c.toNat - 32) else c

/-- Python str.upper() for ASCII strings. -/
def asciiUpper (s : String) : String := ⟨s.data.map asciiUpperChar⟩

/-- Python str.lower() on one ASCII character. -/
def asciiLowerChar (c : Char) : Char :=
  if 'A' ≤ c ∧ c ≤ 'Z' then Char.ofNat (c.toNat + 32) else c

/-- Python str.lower() for ASCII strings. -/
def asciiLower (s : String) : String := ⟨s.data.map asciiLowerChar⟩

/-- Remove leading ASCII whitespace characters. -/
def dropSpace : List Char → List Char
  | [] => []
  | c :: r => if c = ' ' ∨ c = '\t' ∨ c = '\n' ∨ c = '\r' then dropSpace r else c :: r

/-- Python str.strip() for ASCII strings: remove leading and trailing
whitespace. -/
def pyStrip (s : String) : String := ⟨dropSpace ((dropSpace s.data.reverse).reverse)⟩

/-- Python round(x, d): round to d decimal places, ties to even. -/
def pyRound (d : ℕ) (x : ℚ) : ℚ :=
  let s : ℚ := (10 : ℚ) ^ d
  let y := x * s
  let f : ℤ := ⌊y⌋
  let r := y - (f : ℚ)
  let k : ℤ :=
    if r < 1/2 then f
    else if 1/2 < r then f + 1
    else if f % 2 = 0 then f else f + 1
  (k : ℚ) / s

namespace Loan

/-
Embedding of src/calculators/loan_calculator.py.

Only the reducing-balance path (the default loan_type) is embedded:
every claim about this module concerns it.  The detailed=True extras
(yearly summary, break-even, affordability, first/last month
breakdowns) are derived presentation data not referenced by any claim
and are omitted; the fields kept are exactly the ones the claims
mention.  A schedule row stores the un-quantized Decimal quantities the
loop works with; the dict actually appended by the source holds the
quantized projections defined right after the structure.
-/

/-- One row of the amortization schedule (lines 108-136).  The raw
fields are the Decimal values the loop computes with; the source stores
their cent-quantized projections (see below) plus emiReported and
prepayAmount verbatim. -/
structure Row where
  month : ℕ
  emiReported : ℚ
  principalRaw : ℚ
  interestRaw : ℚ
  balanceRaw : ℚ
  prepayAmount : ℚ

/-- The 'principal' entry of the appended dict (lines 121/132). -/
def Row.principalReported (r : Row) : ℚ := quantize2 r.principalRaw

/-- The 'interest' entry of the appended dict (lines 122/133). -/
def Row.interestReported (r : Row) : ℚ := quantize2 r.interestRaw

/-- The 'balance' entry of the appended dict (lines 123/134):
max(balance, 0) quantized to cents. -/
def Row.balanceReported (r : Row) : ℚ := quantize2 (max r.balanceRaw 0)

/-- Python truthiness guard of line 113:
if prepayment and prepayment_month and month == prepayment_month. -/
def prepayActive (prepayment : Option ℚ) (prepaymentMonth : Option ℕ) (month : ℕ) : Prop :=
  match prepayment, prepaymentMonth with
  | some p, some pm => p ≠ 0 ∧ pm ≠ 0 ∧ month = pm
  | _, _ => False

instance (p : Option ℚ) (pm : Option ℕ) (m : ℕ) : Decidable (prepayActive p pm m) := by
  unfold prepayActive
  cases p <;> cases pm <;> exact inferInstance

/-- The schedule loop of lines 103-143.  fuel is the number of months
still to iterate (initially months), month the 1-based loop counter,
balance the running Decimal balance.  The loop appends a row, then
breaks once the balance is ≤ 0. -/
def buildSchedule (emi monthlyRate : ℚ) (prepayment : Option ℚ)
    (prepaymentMonth : Option ℕ) : ℕ → ℕ → ℚ → List Row
  | 0, _, _ => []
  | fuel + 1, month, balance =>
    let interestPayment := balance * monthlyRate
    let pa : ℚ := if prepayActive prepayment prepaymentMonth month then prepayment.getD 0 else 0
    let principalPayment := emi - interestPayment + pa
    let newBalance := balance - principalPayment
    let row : Row := ⟨month, emi + pa, principalPayment, interestPayment, newBalance, pa⟩
    if newBalance ≤ 0 then [row]
    else row :: buildSchedule emi monthlyRate prepayment prepaymentMonth fuel (month + 1) newBalance

/-- total_interest_paid accumulated in lines 138: the sum of the raw
interest payments of the appended rows (the accumulation happens before
the break, so the final row is included, matching the loop). -/
def interestSum (s : List Row) : ℚ := (s.map Row.interestRaw).sum

/-- Running total of the raw principal portions (line 139); the
prepayment is part of principal_payment when present (line 115). -/
def principalRawSum (s : List Row) : ℚ := (s.map Row.principalRaw).sum

/-- Sum of the reported (cent-quantized) principal entries. -/
def principalReportedSum (s : List Row) : ℚ := (s.map Row.principalReported).sum

/-- The fields of the result dict of calculate_reducing_balance_loan
(lines 156-184) that the claims refer to; presentation-only fields are
omitted. -/
structure LoanResult where
  emi : ℚ
  total_interest : ℚ
  total_payment : ℚ
  principal : ℚ
  schedule : List Row
  actual_months_to_payoff : ℕ

/-- Outcome of a call: a raised LoanCalculationError (validation,
lines 44-55), an uncaught Decimal DivisionByZero (possible in the EMI
formula when int(years*12) = 0), or a result dict. -/
inductive LoanOutcome
  | error (msg : String)
  | arithmeticError
  | ok (r : LoanResult)

/-- calculate_reducing_balance_loan (lines 80-184).  months =
int(years*12) truncates toward zero; years > 0 under validation so this
is the floor.  When months = 0 both EMI branches divide by zero
(principal/0 at zero rate, (1+r)^0 - 1 = 0 otherwise) and Decimal
raises, hence arithmeticError.  Under calculate_loan validation
monthlyRate ≥ 0, so with months ≥ 1 the annuity denominator is
nonzero. -/
def calculate_reducing_balance_loan (principal annual_rate years : ℚ)
    (prepayment : Option ℚ) (prepayment_month : Option ℕ) : LoanOutcome :=
  let monthly_rate := annual_rate / (12 * 100)
  let months : ℕ := ⌊years * 12⌋₊
  if months = 0 then .arithmeticError
  else
    let emi : ℚ :=
      if monthly_rate = 0 then quantize2 (principal / (months : ℚ))
      else quantize2 (principal * monthly_rate * (1 + monthly_rate) ^ months /
            ((1 + monthly_rate) ^ months - 1))
    let schedule := buildSchedule emi monthly_rate prepayment prepayment_month months 1 principal
    .ok { emi := emi
          total_interest := quantize2 (interestSum schedule)
          total_payment := quantize2 (emi * (schedule.length : ℚ))
          principal := principal
          schedule := schedule
          actual_months_to_payoff := schedule.length }

/-- calculate_loan (lines 16-77) for the default reducing-balance type.
The simple (detailed=False) return keeps emi, total_interest,
total_payment and principal of the same result, so one result record
serves both modes. -/
def calculate_loan (amount rate duration : ℚ)
    (prepayment : Option ℚ) (prepayment_month : Option ℕ) : LoanOutcome :=
  if amount ≤ 0 then .error "Loan amount must be greater than zero."
  else if rate < 0 then .error "Interest rate cannot be negative."
  else if duration ≤ 0 then .error "Loan duration must be greater than zero."
  else if 100000000 < amount then .error "Loan amount exceeds maximum limit."
  else if 50 < rate then .error "Interest rate seems unusually high. Please verify."
  else if 40 < duration then .error "Loan duration exceeds maximum limit of 40 years."
  else calculate_reducing_balance_loan amount rate duration prepayment prepayment_month

/-- Projection used to state concrete facts without spelling out whole
result records. -/
def LoanOutcome.emiP : LoanOutcome → Option ℚ
  | .ok r => some r.emi
  | _ => none

/-- Projection of total_interest. -/
def LoanOutcome.totalInterestP : LoanOutcome → Option ℚ
  | .ok r => some r.total_interest
  | _ => none

/-- Projection of the schedule. -/
def LoanOutcome.scheduleP : LoanOutcome → Option (List Row)
  | .ok r => some r.schedule
  | _ => none

/-- The per-row balance recurrence: each row's raw balance is the
previous raw balance (the principal at the start) minus that row's raw
principal portion. -/
def chainedFrom (bal : ℚ) : List Row → Prop
  | [] => True
  | r :: rest => r.balanceRaw = bal - r.principalRaw ∧ chainedFrom r.balanceRaw rest

end Loan

namespace Attendance

/-
Embedding of src/calculators/attendance_calculator.py (simple,
detailed=False format, lines 15-79).  Inputs attended/total are Python
ints, so they are modelled as integers; target is a float, modelled as
a rational.  Python raises ZeroDivisionError when a denominator is
exactly zero; the embedding returns zeroDivError in exactly those
spots.
-/

/-- get_attendance_status (lines 147-178), category field only. -/
def get_attendance_status_category (percentage target : ℚ) : String :=
  if target + 10 ≤ percentage then "Excellent"
  else if target ≤ percentage then "Good"
  else if target - 5 ≤ percentage then "Warning"
  else if target - 10 ≤ percentage then "Critical"
  else "Danger"

/-- The simple-format dict returned at lines 70-79. -/
structure AttendanceResult where
  percentage : ℚ
  attended : ℤ
  total : ℤ
  target : ℚ
  classes_needed : ℤ
  can_miss : ℤ
  status : String

/-- Raised AttendanceCalculationError, uncaught ZeroDivisionError, or
the returned dict. -/
inductive AttendanceOutcome
  | error (msg : String)
  | zeroDivError
  | ok (r : AttendanceResult)

/-- calculate_attendance (lines 15-79, detailed=False; the optional
total_classes_in_semester is None so its check never fires).
classes_needed is max(0, int(x) + 1) where x is positive in its branch,
so int() truncation is the floor; can_miss is int of a positive value
in its branch as well.  The divisions by (100 - target) at line 55 and
by target at line 62 raise ZeroDivisionError when the denominator is
zero. -/
def calculate_attendance (attended total : ℤ) (target : ℚ) : AttendanceOutcome :=
  if attended < 0 then .error "Attended classes cannot be negative."
  else if total ≤ 0 then .error "Total classes must be greater than zero."
  else if total < attended then .error "Attended classes cannot exceed total classes."
  else if target < 0 ∨ 100 < target then .error "Target percentage must be between 0 and 100."
  else
    let current : ℚ := ((attended : ℚ) / (total : ℚ)) * 100
    if current < target ∧ (100 : ℚ) - target = 0 then .zeroDivError
    else
      let classes_needed : ℤ :=
        if current < target then
          max 0 (⌊((target * (total : ℚ)) - (100 * (attended : ℚ))) / (100 - target)⌋ + 1)
        else 0
      if target < current ∧ target = 0 then .zeroDivError
      else
        let can_miss : ℤ :=
          if target < current then ⌊((100 * (attended : ℚ)) - target * (total : ℚ)) / target⌋
          else 0
        .ok { percentage := pyRound 2 current
              attended := attended
              total := total
              target := target
              classes_needed := classes_needed
              can_miss := max 0 can_miss
              status := get_attendance_status_category current target }

/-- Projection used for stating concrete facts. -/
def AttendanceOutcome.classesNeededP : AttendanceOutcome → Option ℤ
  | .ok r => some r.classes_needed
  | _ => none

/-- Projection of the rounded percentage field. -/
def AttendanceOutcome.percentageP : AttendanceOutcome → Option ℚ
  | .ok r => some r.percentage
  | _ => none

end Attendance

namespace GPA

/-
Embedding of src/calculators/gpa_calculator.py (simple, detailed=False
path, no previous GPA/credits, lines 14-100).  Course credits arrive
through float(), modelled as a rational field; grades are strings
normalized with upper() then strip().
-/

/-- A course entry: a dict with grade and credits fields. -/
structure Course where
  grade : String
  credits : ℚ

/-- The 5.0-scale table of get_grade_points (lines 167-174). -/
def gradeTable5 : List (String × ℚ) :=
  [("A+", 5), ("A", 5), ("A-", 47/10),
   ("B+", 43/10), ("B", 4), ("B-", 37/10),
   ("C+", 33/10), ("C", 3), ("C-", 27/10),
   ("D+", 23/10), ("D", 2), ("D-", 17/10),
   ("F", 0)]

/-- The default 4.0-scale table of get_grade_points (lines 176-182). -/
def gradeTable4 : List (String × ℚ) :=
  [("A+", 4), ("A", 4), ("A-", 37/10),
   ("B+", 33/10), ("B", 3), ("B-", 27/10),
   ("C+", 23/10), ("C", 2), ("C-", 17/10),
   ("D+", 13/10), ("D", 1), ("D-", 7/10),
   ("F", 0)]

/-- get_grade_points (lines 165-182): the 5.0 table for scale "5.0",
the 4.0 table for every other scale string. -/
def get_grade_points (scale : String) : List (String × ℚ) :=
  if scale = "5.0" then gradeTable5 else gradeTable4

/-- get_letter_grade (lines 185-208). -/
def get_letter_grade (gpa : ℚ) (scale : String) : String :=
  if scale = "5.0" then
    if 47/10 ≤ gpa then "A"
    else if 43/10 ≤ gpa then "A-"
    else if 4 ≤ gpa then "B+"
    else if 37/10 ≤ gpa then "B"
    else if 33/10 ≤ gpa then "B-"
    else if 3 ≤ gpa then "C+"
    else if 27/10 ≤ gpa then "C"
    else if 2 ≤ gpa then "D"
    else "F"
  else
    if 37/10 ≤ gpa then "A"
    else if 33/10 ≤ gpa then "A-"
    else if 3 ≤ gpa then "B+"
    else if 27/10 ≤ gpa then "B"
    else if 23/10 ≤ gpa then "B-"
    else if 2 ≤ gpa then "C+"
    else if 17/10 ≤ gpa then "C"
    else if 1 ≤ gpa then "D"
    else "F"

/-- Python dict lookup in a grade-point table. -/
def lookupGrade : List (String × ℚ) → String → Option ℚ
  | [], _ => none
  | (g, p) :: rest, key => if key = g then some p else lookupGrade rest key

/-- The course loop of lines 48-74, accumulating total quality points
and total credits; errors abort the whole call as raised exceptions
do.  The grade string is normalized with upper() then strip() as at
line 52. -/
def courseLoop (pts : List (String × ℚ)) :
    List Course → ℚ → ℚ → Except String (ℚ × ℚ)
  | [], tp, tc => .ok (tp, tc)
  | c :: rest, tp, tc =>
    let grade := pyStrip (asciiUpper c.grade)
    if c.credits ≤ 0 then .error "Credits must be greater than zero."
    else
      match lookupGrade pts grade with
      | none => .error "Invalid grade."
      | some p => courseLoop pts rest (tp + p * c.credits) (tc + c.credits)

/-- The simple-format dict returned at lines 96-100. -/
structure GPAResult where
  gpa : ℚ
  total_credits : ℚ
  grade : String

/-- Raised GPACalculationError or the returned dict. -/
inductive GPAOutcome
  | error (msg : String)
  | ok (r : GPAResult)

/-- calculate_gpa (lines 14-100, detailed=False, no previous data).
semester_gpa = total_points / total_credits (guarded by the
total_credits > 0 test of line 77); the dict rounds it to 2 places with
Python round and letters it with get_letter_grade on the unrounded
value. -/
def calculate_gpa (courses : List Course) (scale : String) : GPAOutcome :=
  if courses.isEmpty then .error "Course list cannot be empty."
  else
    match courseLoop (get_grade_points scale) courses 0 0 with
    | .error msg => .error msg
    | .ok (tp, tc) =>
      let semester_gpa : ℚ := if 0 < tc then tp / tc else 0
      .ok { gpa := pyRound 2 semester_gpa
            total_credits := tc
            grade := get_letter_grade semester_gpa scale }

end GPA

namespace BMI

/-
Embedding of src/calculators/bmi_calculator.py.  The claims concern
the bmi, category and color fields; these are identical in simple and
detailed mode (both read category_info computed once at line 82), so
the result keeps those three fields and the detailed flag is carried
only to express that mode does not change them.  The remaining
detailed-mode fields (ideal weight, BSA, ponderal index, caloric
needs, ...) are derived data never read by a claim and total functions
of the validated inputs, so omitting them loses no failure path.
-/

/-- Python truthiness test of line 155: age and age < 20. -/
def agePediatric (age : Option ℤ) : Prop :=
  match age with
  | some a => a ≠ 0 ∧ a < 20
  | none => False

instance (age : Option ℤ) : Decidable (agePediatric age) := by
  unfold agePediatric
  cases age <;> exact inferInstance

/-- Validation test of line 52: age is not None and out of 1-120. -/
def ageInvalid (age : Option ℤ) : Prop :=
  match age with
  | some a => a ≤ 0 ∨ 120 < a
  | none => False

instance (age : Option ℤ) : Decidable (ageInvalid age) := by
  unfold ageInvalid
  cases age <;> exact inferInstance

/-- Validation test of line 54: gender is not None and not male/female
after lower(). -/
def genderInvalid (gender : Option String) : Prop :=
  match gender with
  | some g => asciiLower g ≠ "male" ∧ asciiLower g ≠ "female"
  | none => False

instance (gender : Option String) : Decidable (genderInvalid gender) := by
  unfold genderInvalid
  cases gender <;> exact inferInstance

/-- Category info returned by get_bmi_category (lines 153-219). -/
structure CategoryInfo where
  category : String
  color : String

/-- get_bmi_category (lines 153-219): pediatric short-circuit first,
then the numeric ladder with lower-inclusive thresholds. -/
def get_bmi_category (bmi : ℚ) (age : Option ℤ) : CategoryInfo :=
  if agePediatric age then ⟨"See pediatric BMI chart", "#95a5a6"⟩
  else if bmi < 16 then ⟨"Severe Underweight", "#3498db"⟩
  else if 16 ≤ bmi ∧ bmi < 17 then ⟨"Moderate Underweight", "#5dade2"⟩
  else if 17 ≤ bmi ∧ bmi < 37/2 then ⟨"Mild Underweight", "#85c1e9"⟩
  else if 37/2 ≤ bmi ∧ bmi < 25 then ⟨"Normal Weight", "#2ecc71"⟩
  else if 25 ≤ bmi ∧ bmi < 30 then ⟨"Overweight", "#f39c12"⟩
  else if 30 ≤ bmi ∧ bmi < 35 then ⟨"Obese Class I", "#e67e22"⟩
  else if 35 ≤ bmi ∧ bmi < 40 then ⟨"Obese Class II", "#d35400"⟩
  else ⟨"Obese Class III", "#e74c3c"⟩

/-- The fields of the returned dict that the claims read; they are the
whole simple-format dict (lines 112-116) apart from its category
duplicates, and agree with the detailed dict fields of the same names
(lines 118-124). -/
structure BMIResult where
  bmi : ℚ
  category : String
  color : String

/-- Raised BMICalculationError or the returned dict. -/
inductive BMIOutcome
  | error (msg : String)
  | ok (r : BMIResult)

/-- calculate_bmi (lines 16-150).  Imperial inputs convert at 2.54
cm/inch and 0.453592 kg/lb before the metric range checks; bmi =
weight_kg / (height_m)^2 rounded to 2 places with Python round.  The
gender argument only gates detailed-mode extras after validation. -/
def calculate_bmi (height weight : ℚ) (age : Option ℤ) (gender : Option String)
    (unit_system : String) (detailed : Bool) : BMIOutcome :=
  if height ≤ 0 then .error "Height must be greater than zero."
  else if weight ≤ 0 then .error "Weight must be greater than zero."
  else if asciiLower unit_system ≠ "metric" ∧ asciiLower unit_system ≠ "imperial" then
    .error "Unit system must be metric or imperial."
  else if ageInvalid age then .error "Age must be between 1 and 120 years."
  else if genderInvalid gender then .error "Gender must be male or female."
  else
    let imperial := asciiLower unit_system = "imperial"
    let height_cm := if imperial then height * (254/100) else height
    let weight_kg := if imperial then weight * (453592/1000000) else weight
    if height_cm < 50 ∨ 300 < height_cm then .error "Height must be between 50-300 cm."
    else if weight_kg < 20 ∨ 500 < weight_kg then .error "Weight must be between 20-500 kg."
    else
      let height_m := height_cm / 100
      let bmi := pyRound 2 (weight_kg / height_m ^ 2)
      let info := get_bmi_category bmi age
      .ok { bmi := bmi, category := info.category, color := info.color }

/-- Comparison definition for the refinement claim C7, written from the
words of the spec: category thresholds at 16, 17, 18.5, 25, 30, 35, 40,
lower-inclusive. -/
def bmiCategorySpec (bmi : ℚ) : String :=
  if bmi < 16 then "Severe Underweight"
  else if bmi < 17 then "Moderate Underweight"
  else if bmi < 37/2 then "Mild Underweight"
  else if bmi < 25 then "Normal Weight"
  else if bmi < 30 then "Overweight"
  else if bmi < 35 then "Obese Class I"
  else if bmi < 40 then "Obese Class II"
  else "Obese Class III"

end BMI

namespace CompoundInterest

/-
Embedding of src/calculators/compound_interest_calculator.py, simple
(detailed=False) path, lines 16-114.  The year-by-year breakdown list
(generate_breakdown) is total on the validated domain and never read by
a claim, so the result keeps the summary numbers.  The only partial
operation on the validated domain is the annuity division by r/n at
lines 80/83, reached exactly when monthly_contribution > 0; it is a
Python float division that raises ZeroDivisionError when r/n is zero,
modelled by the zeroDivError outcome.
-/

/-- The summary fields of the simple-format dict (lines 106-114). -/
structure CIResult where
  principal : ℚ
  rate : ℚ
  time : ℕ
  frequency : ℕ
  compound_interest : ℚ
  total_amount : ℚ

/-- Raised CompoundInterestCalculationError, uncaught
ZeroDivisionError, or the returned dict. -/
inductive CIOutcome
  | error (msg : String)
  | zeroDivError
  | ok (r : CIResult)

/-- calculate_compound_interest (lines 16-114, detailed=False). -/
def calculate_compound_interest (principal rate : ℚ) (time : ℕ) (frequency : ℕ)
    (monthly_contribution : ℚ) (contribution_timing : String)
    (inflation_rate : ℚ) : CIOutcome :=
  if principal < 0 then .error "Principal amount cannot be negative."
  else if rate < 0 then .error "Interest rate cannot be negative."
  else if time = 0 then .error "Time period must be greater than zero."
  else if ¬ (frequency = 1 ∨ frequency = 2 ∨ frequency = 4 ∨ frequency = 12 ∨
             frequency = 52 ∨ frequency = 365) then
    .error "Frequency must be 1, 2, 4, 12, 52, or 365."
  else if monthly_contribution < 0 then .error "Monthly contribution cannot be negative."
  else if inflation_rate < 0 ∨ 100 < inflation_rate then
    .error "Inflation rate must be between 0 and 100."
  else
    let r := rate / 100
    let n : ℚ := (frequency : ℚ)
    let fv_principal := principal * (1 + r / n) ^ (frequency * time)
    if 0 < monthly_contribution then
      if r / n = 0 then .zeroDivError
      else
        let contribution_per_period := monthly_contribution * 12 / n
        let growth := ((1 + r / n) ^ (frequency * time) - 1) / (r / n)
        let fv_contributions :=
          if asciiLower contribution_timing = "start" then
            contribution_per_period * growth * (1 + r / n)
          else contribution_per_period * growth
        let total_contributions := monthly_contribution * 12 * (time : ℚ)
        let total_amount := fv_principal + fv_contributions
        .ok { principal := principal, rate := rate, time := time, frequency := frequency
              compound_interest := pyRound 2 (total_amount - principal - total_contributions)
              total_amount := pyRound 2 total_amount }
    else
      .ok { principal := principal, rate := rate, time := time, frequency := frequency
            compound_interest := pyRound 2 (fv_principal - principal)
            total_amount := pyRound 2 fv_principal }

end CompoundInterest

namespace MathCalc

/-
Embedding of the result handling of evaluate_expression in
src/calculators/math_calculator.py (lines 51-94).  The call to the
built-in evaluator at line 51 is abstracted as an EvalOutcome: either a
Python number (an int, or a float that may be NaN or an infinity) or
one of the exception classes the handlers at lines 85-94 distinguish.
Everything after line 51 is embedded: the NaN/Infinity tests raise
MathCalculationError inside the try block (lines 54-58) and are caught
by the generic Exception handler of line 93, producing the prefixed
messages below; floats are rounded to the requested precision at line
59.
-/

/-- A Python float result: finite, NaN, or a signed infinity. -/
inductive PyFloat
  | finite (q : ℚ)
  | nan
  | inf
  | ninf

/-- A numeric result of the evaluator: int or float. -/
inductive PyNumber
  | int (n : ℤ)
  | float (f : PyFloat)

/-- Whether a result value is NaN or an infinity. -/
def PyNumber.isNanOrInf : PyNumber → Bool
  | .float .nan => true
  | .float .inf => true
  | .float .ninf => true
  | _ => false

/-- Outcome of the eval call at line 51. -/
inductive EvalOutcome
  | value (v : PyNumber)
  | zeroDivisionError
  | overflowError
  | valueError (msg : String)
  | syntaxError
  | otherError (msg : String)

/-- The dict shape shared by the success return (lines 63-67) and
create_error_response (lines 245-253); detailed mode adds static
suggestion text only. -/
structure Response where
  result : Option PyNumber
  success : Bool
  error : Option String

/-- create_error_response (lines 245-267): result None, success False,
and the message. -/
def create_error_response (msg : String) : Response :=
  { result := none, success := false, error := some msg }

/-- Lines 53-94 of evaluate_expression: NaN and Infinity float results
raise MathCalculationError (distinct messages) which the generic
handler at line 93 turns into an error response; finite floats are
rounded; each exception class maps to its handler at lines 85-94. -/
def handle_eval_result (outcome : EvalOutcome) (precision : ℕ) : Response :=
  match outcome with
  | .value (.float .nan) =>
      create_error_response "Calculation error: Result is not a number (NaN)."
  | .value (.float .inf) =>
      create_error_response "Calculation error: Result is infinity."
  | .value (.float .ninf) =>
      create_error_response "Calculation error: Result is infinity."
  | .value (.float (.finite q)) =>
      { result := some (.float (.finite (pyRound precision q))), success := true, error := none }
  | .value (.int n) =>
      { result := some (.int n), success := true, error := none }
  | .zeroDivisionError => create_error_response "Division by zero is undefined."
  | .overflowError => create_error_response "Result is too large to compute."
  | .valueError msg => create_error_response ("Invalid value: " ++ msg)
  | .syntaxError => create_error_response "Invalid mathematical syntax."
  | .otherError msg => create_error_response ("Calculation error: " ++ msg)

/-- Whether the eval outcome is one of the claim's failure modes:
a division by zero, a NaN result, or an infinite result. -/
def badOutcome : EvalOutcome → Prop
  | .zeroDivisionError => True
  | .value (.float .nan) => True
  | .value (.float .inf) => True
  | .value (.float .ninf) => True
  | _ => False

end MathCalc

/-
Helper lemmas shared by the claim theorems.
-/

theorem quantize2_mono {x y : ℚ} (h : x ≤ y) : quantize2 x ≤ quantize2 y := by
  unfold quantize2
  split_ifs with hx hy hy
  · have hf : ⌊x * 100 + 1/2⌋ ≤ ⌊y * 100 + 1/2⌋ :=
      Int.floor_le_floor (by linarith)
    have hf' : ((⌊x * 100 + 1/2⌋ : ℤ) : ℚ) ≤ ((⌊y * 100 + 1/2⌋ : ℤ) : ℚ) := by
      exact_mod_cast hf
    linarith
  · exact absurd (le_trans hx h) hy
  · have h1 : (0 : ℤ) ≤ ⌊-x * 100 + 1/2⌋ := by
      rw [Int.le_floor]
      push_cast
      nlinarith [lt_of_not_le hx]
    have h2 : (0 : ℤ) ≤ ⌊y * 100 + 1/2⌋ := by
      rw [Int.le_floor]
      push_cast
      linarith
    have h1' : (0 : ℚ) ≤ ((⌊-x * 100 + 1/2⌋ : ℤ) : ℚ) := by exact_mod_cast h1
    have h2' : (0 : ℚ) ≤ ((⌊y * 100 + 1/2⌋ : ℤ) : ℚ) := by exact_mod_cast h2
    have := div_nonneg h1' (by norm_num : (0:ℚ) ≤ 100)
    have := div_nonneg h2' (by norm_num : (0:ℚ) ≤ 100)
    linarith
  · have hf : ⌊-y * 100 + 1/2⌋ ≤ ⌊-x * 100 + 1/2⌋ :=
      Int.floor_le_floor (by linarith)
    have hf' : ((⌊-y * 100 + 1/2⌋ : ℤ) : ℚ) ≤ ((⌊-x * 100 + 1/2⌋ : ℤ) : ℚ) := by
      exact_mod_cast hf
    linarith

namespace Loan

theorem buildSchedule_row_sum (emi ρ : ℚ) (pp : Option ℚ) (ppm : Option ℕ) :
    ∀ (fuel month : ℕ) (bal : ℚ), ∀ r ∈ buildSchedule emi ρ pp ppm fuel month bal,
      r.principalRaw + r.interestRaw = r.emiReported := by
  intro fuel
  induction fuel with
  | zero => intro month bal r hr; simp [buildSchedule] at hr
  | succ n ih =>
    intro month bal r hr
    simp only [buildSchedule] at hr
    by_cases hact : prepayActive pp ppm month <;>
      simp only [if_pos, if_neg, hact, ite_true, ite_false] at hr <;>
      [skip; skip] <;>
      · split at hr
        · rcases List.mem_singleton.mp hr with rfl
          show (emi - bal * ρ + _) + bal * ρ = emi + _
          ring
        · rcases List.mem_cons.mp hr with rfl | hr'
          · show (emi - bal * ρ + _) + bal * ρ = emi + _
            ring
          · exact ih _ _ r hr'

theorem buildSchedule_chained (emi ρ : ℚ) (pp : Option ℚ) (ppm : Option ℕ) :
    ∀ (fuel month : ℕ) (bal : ℚ),
      chainedFrom bal (buildSchedule emi ρ pp ppm fuel month bal) := by
  intro fuel
  induction fuel with
  | zero => intro month bal; simp [buildSchedule, chainedFrom]
  | succ n ih =>
    intro month bal
    simp only [buildSchedule]
    by_cases hact : prepayActive pp ppm month <;>
      simp only [if_pos, if_neg, hact, ite_true, ite_false] <;>
      · split
        · exact ⟨rfl, trivial⟩
        · exact ⟨rfl, ih (month + 1) _⟩

theorem chainedFrom_sum :
    ∀ (s : List Row) (bal : ℚ), chainedFrom bal s →
      ∀ last, s.getLast? = some last → principalRawSum s = bal - last.balanceRaw := by
  intro s
  induction s with
  | nil => intro bal _ last h; simp at h
  | cons r rest ih =>
    intro bal hch last hlast
    obtain ⟨h1, h2⟩ := hch
    cases rest with
    | nil =>
      simp only [List.getLast?_singleton, Option.some_inj] at hlast
      subst hlast
      simp only [principalRawSum, List.map_cons, List.map_nil, List.sum_cons, List.sum_nil]
      linarith
    | cons r2 rest2 =>
      have hlast' : (r2 :: rest2).getLast? = some last := by
        rwa [List.getLast?_cons_cons] at hlast
      have hs := ih r.balanceRaw h2 last hlast'
      simp only [principalRawSum, List.map_cons, List.sum_cons] at hs ⊢
      linarith

end Loan

/-- Claim C1 (amended) - for every valid reducing-balance loan input,
every ledger row satisfies principal + interest = reported emi exactly
in the un-quantized amounts (the prepayment row's reported emi includes
the prepayment, which is part of its principal portion); each row's raw
balance is the previous raw balance minus that row's raw principal
portion, and the stored balance field is that value clamped at zero and
quantized; and the sum of all raw principal portions (prepayment
included) equals the original principal minus the final raw balance, so
it matches the principal within rounding epsilon exactly when the final
balance ends near zero.  The cent-quantized row figures can exceed the
reported emi by one cent when an interest portion lands on exactly half
a cent, and the final payment is not capped at the remaining balance,
which is what the counterexample exhibits. -/
theorem Loan.claim_C1_ledger_invariants
    (amount rate duration : ℚ) (pp : Option ℚ) (ppm : Option ℕ)
    (h1 : 0 < amount) (h2 : amount ≤ 100000000) (h3 : 0 ≤ rate) (h4 : rate ≤ 50)
    (h5 : 0 < duration) (h6 : duration ≤ 40) :
    ∀ res, calculate_loan amount rate duration pp ppm = .ok res →
      (∀ r ∈ res.schedule, r.principalRaw + r.interestRaw = r.emiReported) ∧
      chainedFrom amount res.schedule ∧
      (∀ r ∈ res.schedule, r.balanceReported = quantize2 (max r.balanceRaw 0)) ∧
      (∀ last, res.schedule.getLast? = some last →
        principalRawSum res.schedule = amount - last.balanceRaw) := by
  intro res hok
  unfold calculate_loan at hok
  rw [if_neg (not_le.mpr h1), if_neg (not_lt.mpr h3), if_neg (not_le.mpr h5),
    if_neg (not_lt.mpr h2), if_neg (not_lt.mpr h4), if_neg (not_lt.mpr h6)] at hok
  simp only [calculate_reducing_balance_loan] at hok
  split at hok
  · exact absurd hok (by simp)
  · injection hok with hok
    subst hok
    refine ⟨fun r hr => buildSchedule_row_sum _ _ _ _ _ _ _ r hr,
      buildSchedule_chained _ _ _ _ _ _ _,
      fun r _ => rfl,
      fun last hlast => chainedFrom_sum _ _ (buildSchedule_chained _ _ _ _ _ _ _) last hlast⟩

/-- Witness for claim C1 - the amended invariants instantiated at the
concrete loan (amount 1000, rate 0, duration 0.25 years), whose
three-row schedule is computed explicitly. -/
theorem Loan.claim_C1_ledger_invariants_witness :
    ∃ res, calculate_loan 1000 0 (1/4) none none = .ok res ∧
      (∀ r ∈ res.schedule, r.principalRaw + r.interestRaw = r.emiReported) ∧
      chainedFrom 1000 res.schedule ∧
      (∀ last, res.schedule.getLast? = some last →
        principalRawSum res.schedule = 1000 - last.balanceRaw) := by
  refine ⟨⟨33333/100, 0, 99999/100, 1000,
    [⟨1, 33333/100, 33333/100, 0, 66667/100, 0⟩,
     ⟨2, 33333/100, 33333/100, 0, 33334/100, 0⟩,
     ⟨3, 33333/100, 33333/100, 0, 1/100, 0⟩], 3⟩, ?_, ?_⟩
  case _ =>
    norm_num [calculate_loan, calculate_reducing_balance_loan, buildSchedule, prepayActive,
      quantize2, interestSum]
  case _ =>
    have h := Loan.claim_C1_ledger_invariants 1000 0 (1/4) none none
      (by norm_num) (by norm_num) (by norm_num) (by norm_num) (by norm_num) (by norm_num)
      ⟨33333/100, 0, 99999/100, 1000,
        [⟨1, 33333/100, 33333/100, 0, 66667/100, 0⟩,
         ⟨2, 33333/100, 33333/100, 0, 33334/100, 0⟩,
         ⟨3, 33333/100, 33333/100, 0, 1/100, 0⟩], 3⟩
      (by norm_num [calculate_loan, calculate_reducing_balance_loan, buildSchedule,
        prepayActive, quantize2, interestSum])
    exact ⟨h.1, h.2.1, h.2.2.2⟩

/-- Counterexample for claim C1 as stated - at loan (100.5, 12, 1 year)
the first ledger row's reported (cent-quantized) interest 1.01 and
principal 7.93 sum to 8.94 while the reported emi is 8.93, so the
stored row figures do not satisfy principal + interest = emi exactly;
and at loan (1000, 12, 1 year) with a 900 prepayment in month 1 the
loan pays off (final raw balance -67.4885 is not positive) while the
reported principal portions sum to 1067.49, missing the 1000 principal
by 67.49, far beyond rounding epsilon, because the final payment is not
capped at the remaining balance. -/
theorem Loan.claim_C1_counterexample :
    ((calculate_loan (201/2) 12 1 none none).scheduleP.bind List.head?).map
        (fun r => (r.interestReported + r.principalReported, r.emiReported)) =
      some (894/100, 893/100) ∧
    (894/100 : ℚ) ≠ 893/100 ∧
    (calculate_loan 1000 12 1 (some 900) (some 1)).scheduleP.map
        (fun s => (principalReportedSum s, s.getLast?.map Row.balanceRaw)) =
      some (106749/100, some (-134977/2000)) ∧
    (-134977/2000 : ℚ) ≤ 0 ∧
    (50 : ℚ) < (106749/100 : ℚ) - 1000 := by
  refine ⟨?_, by norm_num, ?_, by norm_num, by norm_num⟩
  · norm_num [calculate_loan, calculate_reducing_balance_loan, buildSchedule, prepayActive,
      quantize2, interestSum, LoanOutcome.scheduleP, Row.interestReported, Row.principalReported]
  · norm_num [calculate_loan, calculate_reducing_balance_loan, buildSchedule, prepayActive,
      quantize2, interestSum, principalReportedSum, LoanOutcome.scheduleP,
      Row.principalReported, Row.balanceRaw]

namespace Loan

theorem buildSchedule_prepay_rows (emi ρ p : ℚ) (m : ℕ) (hp : p ≠ 0) (hm : m ≠ 0) :
    ∀ (fuel month : ℕ) (bal : ℚ), ∀ r ∈ buildSchedule emi ρ (some p) (some m) fuel month bal,
      (r.month = m → r.emiReported = emi + p ∧
        r.principalRaw = emi - r.interestRaw + p ∧ r.prepayAmount = p) ∧
      (r.month ≠ m → r.emiReported = emi + 0 ∧ r.prepayAmount = 0) := by
  intro fuel
  induction fuel with
  | zero => intro month bal r hr; simp [buildSchedule] at hr
  | succ n ih =>
    intro month bal r hr
    simp only [buildSchedule] at hr
    by_cases hmm : month = m
    · have hact : prepayActive (some p) (some m) month := ⟨hp, hm, hmm⟩
      simp only [if_pos hact, Option.getD_some] at hr
      split at hr
      · rcases List.mem_singleton.mp hr with rfl
        exact ⟨fun _ => ⟨rfl, by show emi - bal * ρ + p = emi - bal * ρ + p; ring, rfl⟩,
          fun hne => absurd hmm hne⟩
      · rcases List.mem_cons.mp hr with rfl | hr'
        · exact ⟨fun _ => ⟨rfl, by show emi - bal * ρ + p = emi - bal * ρ + p; ring, rfl⟩,
            fun hne => absurd hmm hne⟩
        · exact ih _ _ r hr'
    · have hact : ¬ prepayActive (some p) (some m) month := by
        intro hact
        exact hmm hact.2.2
      simp only [if_neg hact] at hr
      split at hr
      · rcases List.mem_singleton.mp hr with rfl
        exact ⟨fun he => absurd he hmm, fun _ => ⟨rfl, rfl⟩⟩
      · rcases List.mem_cons.mp hr with rfl | hr'
        · exact ⟨fun he => absurd he hmm, fun _ => ⟨rfl, rfl⟩⟩
        · exact ih _ _ r hr'

theorem buildSchedule_prepay_past (emi ρ p : ℚ) (m : ℕ) :
    ∀ (fuel month : ℕ) (bal : ℚ), m < month →
      buildSchedule emi ρ (some p) (some m) fuel month bal =
      buildSchedule emi ρ none none fuel month bal := by
  intro fuel
  induction fuel with
  | zero => intro month bal _; rfl
  | succ n ih =>
    intro month bal hlt
    have hact : ¬ prepayActive (some p) (some m) month := by
      intro hact
      exact absurd hact.2.2 (by omega)
    have hact' : ¬ prepayActive none none month := fun h => h
    simp only [buildSchedule, if_neg hact, if_neg hact']
    split
    · rfl
    · rw [ih (month + 1) _ (by omega)]

theorem buildSchedule_length_mono (emi ρ : ℚ) (hρ : 0 ≤ ρ) :
    ∀ (fuel month : ℕ) (b1 b2 : ℚ), b1 ≤ b2 →
      (buildSchedule emi ρ none none fuel month b1).length ≤
      (buildSchedule emi ρ none none fuel month b2).length := by
  intro fuel
  induction fuel with
  | zero => intro month b1 b2 _; exact le_refl _
  | succ n ih =>
    intro month b1 b2 hb
    have hact : ¬ prepayActive none none month := fun h => h
    simp only [buildSchedule, if_neg hact]
    have hmul : b1 * ρ ≤ b2 * ρ := mul_le_mul_of_nonneg_right hb hρ
    have hnb : b1 - (emi - b1 * ρ + 0) ≤ b2 - (emi - b2 * ρ + 0) := by linarith
    by_cases h2 : b2 - (emi - b2 * ρ + 0) ≤ 0
    · rw [if_pos (le_trans hnb h2), if_pos h2]
      simp only [List.length_cons, List.length_nil]
      omega
    · rw [if_neg h2]
      by_cases h1 : b1 - (emi - b1 * ρ + 0) ≤ 0
      · rw [if_pos h1]
        simp only [List.length_cons, List.length_nil]
        omega
      · rw [if_neg h1]
        simp only [List.length_cons]
        exact Nat.succ_le_succ (ih (month + 1) _ _ hnb)

theorem buildSchedule_prepay_length_le (emi ρ p : ℚ) (hρ : 0 ≤ ρ) (hp : 0 ≤ p) (m : ℕ) :
    ∀ (fuel month : ℕ) (bal : ℚ),
      (buildSchedule emi ρ (some p) (some m) fuel month bal).length ≤
      (buildSchedule emi ρ none none fuel month bal).length := by
  intro fuel
  induction fuel with
  | zero => intro month bal; exact le_refl _
  | succ n ih =>
    intro month bal
    have hact' : ¬ prepayActive none none month := fun h => h
    by_cases hact : prepayActive (some p) (some m) month
    · have hpa : (if prepayActive (some p) (some m) month then (some p).getD 0 else 0) = p := by
        rw [if_pos hact]; rfl
      simp only [buildSchedule, if_neg hact', hpa]
      have hnb : bal - (emi - bal * ρ + p) ≤ bal - (emi - bal * ρ + 0) := by linarith
      by_cases h2 : bal - (emi - bal * ρ + 0) ≤ 0
      · rw [if_pos (le_trans hnb h2), if_pos h2]
        simp only [List.length_cons, List.length_nil]
        omega
      · rw [if_neg h2]
        by_cases h1 : bal - (emi - bal * ρ + p) ≤ 0
        · rw [if_pos h1]
          simp only [List.length_cons, List.length_nil]
          omega
        · rw [if_neg h1]
          simp only [List.length_cons]
          refine Nat.succ_le_succ ?_
          have hmon : month = m := hact.2.2
          rw [buildSchedule_prepay_past emi ρ p m n (month + 1) _ (by omega)]
          exact buildSchedule_length_mono emi ρ hρ n (month + 1) _ _ hnb
    · have hpa : (if prepayActive (some p) (some m) month then (some p).getD 0 else 0) = 0 := by
        rw [if_neg hact]
      simp only [buildSchedule, if_neg hact', hpa]
      split
      · exact le_refl _
      · simp only [List.length_cons]
        exact Nat.succ_le_succ (ih (month + 1) _)

end Loan

/-- Claim C3 (confirmed) - for every valid reducing-balance loan with a
one-time prepayment p > 0 scheduled in month m ≥ 1, the ledger row of
month m carries prepayment p entirely inside its principal portion
(principal = emi - interest + p) and reports emi equal to the scheduled
EMI plus p, while every other row (in particular every row after month
m) reports the original scheduled EMI and zero prepayment; the
scheduled EMI is identical to the no-prepayment run of the same loan
(no re-amortization) and the payoff takes at most as many months. -/
theorem Loan.claim_C3_prepayment_frame
    (amount rate duration p : ℚ) (m : ℕ)
    (h1 : 0 < amount) (h2 : amount ≤ 100000000) (h3 : 0 ≤ rate) (h4 : rate ≤ 50)
    (h5 : 0 < duration) (h6 : duration ≤ 40) (hp : 0 < p) (hm : 1 ≤ m) :
    ∀ res, calculate_loan amount rate duration (some p) (some m) = .ok res →
      (∀ r ∈ res.schedule,
        (r.month = m → r.emiReported = res.emi + p ∧
          r.principalRaw = res.emi - r.interestRaw + p ∧ r.prepayAmount = p) ∧
        (r.month ≠ m → r.emiReported = res.emi ∧ r.prepayAmount = 0)) ∧
      (∀ res0, calculate_loan amount rate duration none none = .ok res0 →
        res.emi = res0.emi ∧ res.schedule.length ≤ res0.schedule.length) := by
  intro res hok
  unfold calculate_loan at hok
  rw [if_neg (not_le.mpr h1), if_neg (not_lt.mpr h3), if_neg (not_le.mpr h5),
    if_neg (not_lt.mpr h2), if_neg (not_lt.mpr h4), if_neg (not_lt.mpr h6)] at hok
  simp only [calculate_reducing_balance_loan] at hok
  split at hok
  · exact absurd hok (by simp)
  · injection hok with hok
    subst hok
    constructor
    · intro r hr
      have h := buildSchedule_prepay_rows _ _ p m (ne_of_gt hp) (by omega) _ _ _ r hr
      exact ⟨h.1, fun hne => ⟨by rw [(h.2 hne).1, add_zero], (h.2 hne).2⟩⟩
    · intro res0 hok0
      unfold calculate_loan at hok0
      rw [if_neg (not_le.mpr h1), if_neg (not_lt.mpr h3), if_neg (not_le.mpr h5),
        if_neg (not_lt.mpr h2), if_neg (not_lt.mpr h4), if_neg (not_lt.mpr h6)] at hok0
      simp only [calculate_reducing_balance_loan] at hok0
      split at hok0
      · exact absurd hok0 (by simp)
      · injection hok0 with hok0
        subst hok0
        refine ⟨rfl, ?_⟩
        exact buildSchedule_prepay_length_le _ _ p
          (by positivity) (le_of_lt hp) m _ _ _

/-- Witness for claim C3 - the frame property instantiated at loan
(1000, 12, 1 year) with a 900 prepayment in month 1: the first row
reports emi 988.85 = 88.85 + 900 with the 900 inside its principal
portion, the second row reports the unchanged emi 88.85, and the
payoff takes 2 of the scheduled 12 months. -/
theorem Loan.claim_C3_prepayment_frame_witness :
    ∃ res, calculate_loan 1000 12 1 (some 900) (some 1) = .ok res ∧
      (∀ r ∈ res.schedule,
        (r.month = 1 → r.emiReported = res.emi + 900) ∧
        (r.month ≠ 1 → r.emiReported = res.emi)) := by
  refine ⟨⟨1777/20, 1021/100, 1777/10, 1000,
    [⟨1, 19777/20, 19577/20, 10, 423/20, 900⟩,
     ⟨2, 1777/20, 177277/2000, 423/2000, -134977/2000, 0⟩], 2⟩, ?_, ?_⟩
  case _ =>
    norm_num [calculate_loan, calculate_reducing_balance_loan, buildSchedule, prepayActive,
      quantize2, interestSum]
  case _ =>
    have h := Loan.claim_C3_prepayment_frame 1000 12 1 900 1
      (by norm_num) (by norm_num) (by norm_num) (by norm_num) (by norm_num) (by norm_num)
      (by norm_num) (by norm_num)
      ⟨1777/20, 1021/100, 1777/10, 1000,
        [⟨1, 19777/20, 19577/20, 10, 423/20, 900⟩,
         ⟨2, 1777/20, 177277/2000, 423/2000, -134977/2000, 0⟩], 2⟩
      (by norm_num [calculate_loan, calculate_reducing_balance_loan, buildSchedule,
        prepayActive, quantize2, interestSum])
    exact fun r hr => ⟨fun he => ((h.1 r hr).1 he).1, fun hne => ((h.1 r hr).2 hne).1⟩

namespace Loan

theorem interestSum_nonneg (emi ρ : ℚ) (hρ : 0 ≤ ρ) :
    ∀ (fuel month : ℕ) (bal : ℚ), 0 ≤ bal →
      0 ≤ interestSum (buildSchedule emi ρ none none fuel month bal) := by
  intro fuel
  induction fuel with
  | zero => intro month bal _; simp [buildSchedule, interestSum]
  | succ n ih =>
    intro month bal hbal
    have hact : ¬ prepayActive none none month := fun h => h
    simp only [buildSchedule, if_neg hact]
    have hi : 0 ≤ bal * ρ := mul_nonneg hbal hρ
    split
    · simpa [interestSum] using hi
    · rename_i hpos
      have h2 := ih (month + 1) _ (le_of_lt (lt_of_not_le hpos))
      simp only [interestSum, List.map_cons, List.sum_cons] at h2 ⊢
      linarith

theorem interestSum_mono (emi ρ1 ρ2 : ℚ) (h0 : 0 ≤ ρ1) (h12 : ρ1 ≤ ρ2) :
    ∀ (fuel month : ℕ) (b1 b2 : ℚ), 0 ≤ b1 → b1 ≤ b2 →
      interestSum (buildSchedule emi ρ1 none none fuel month b1) ≤
      interestSum (buildSchedule emi ρ2 none none fuel month b2) := by
  intro fuel
  induction fuel with
  | zero => intro month b1 b2 _ _; simp [buildSchedule, interestSum]
  | succ n ih =>
    intro month b1 b2 hb1 hb
    have hact : ¬ prepayActive none none month := fun h => h
    simp only [buildSchedule, if_neg hact]
    have hb2 : (0:ℚ) ≤ b2 := le_trans hb1 hb
    have hi : b1 * ρ1 ≤ b2 * ρ2 := mul_le_mul hb h12 h0 hb2
    have hnb : b1 - (emi - b1 * ρ1 + 0) ≤ b2 - (emi - b2 * ρ2 + 0) := by
      have : b1 * ρ1 ≤ b2 * ρ2 := hi
      linarith
    by_cases h2 : b2 - (emi - b2 * ρ2 + 0) ≤ 0
    · rw [if_pos (le_trans hnb h2), if_pos h2]
      simpa [interestSum] using hi
    · rw [if_neg h2]
      have h2pos : 0 ≤ b2 - (emi - b2 * ρ2 + 0) := le_of_lt (lt_of_not_le h2)
      by_cases h1 : b1 - (emi - b1 * ρ1 + 0) ≤ 0
      · rw [if_pos h1]
        have hrest := interestSum_nonneg emi ρ2 (le_trans h0 h12) n (month + 1) _ h2pos
        simp only [interestSum, List.map_cons, List.sum_cons, List.map_nil,
          List.sum_nil] at hrest ⊢
        linarith
      · rw [if_neg h1]
        have h1pos : 0 ≤ b1 - (emi - b1 * ρ1 + 0) := le_of_lt (lt_of_not_le h1)
        have hrec := ih (month + 1) _ _ h1pos hnb
        simp only [interestSum, List.map_cons, List.sum_cons] at hrec ⊢
        linarith

end Loan

/-- Claim C8 (amended) - for fixed valid principal and duration and no
prepayment, total_interest is monotone non-decreasing in the rate
whenever the two rates produce the same cent-rounded EMI; when a rate
increase bumps the rounded EMI to the next cent, total_interest can
drop slightly (see the counterexample), so the claim as stated over all
rate pairs fails only through that rounding step. -/
theorem Loan.claim_C8_monotone_same_emi
    (amount r1 r2 duration : ℚ)
    (h1 : 0 < amount) (h2 : amount ≤ 100000000) (h3 : 0 ≤ r1) (h4 : r2 ≤ 50)
    (h5 : 0 < duration) (h6 : duration ≤ 40) (h12 : r1 ≤ r2)
    (hemi : (calculate_loan amount r1 duration none none).emiP =
            (calculate_loan amount r2 duration none none).emiP) :
    ∀ t1 t2, (calculate_loan amount r1 duration none none).totalInterestP = some t1 →
      (calculate_loan amount r2 duration none none).totalInterestP = some t2 →
      t1 ≤ t2 := by
  have h3' : (0:ℚ) ≤ r2 := le_trans h3 h12
  have h4' : r1 ≤ 50 := le_trans h12 h4
  intro t1 t2 ht1 ht2
  unfold calculate_loan at hemi ht1 ht2
  rw [if_neg (not_le.mpr h1), if_neg (not_lt.mpr h3), if_neg (not_le.mpr h5),
    if_neg (not_lt.mpr h2), if_neg (not_lt.mpr h4'), if_neg (not_lt.mpr h6)] at hemi ht1
  rw [if_neg (not_le.mpr h1), if_neg (not_lt.mpr h3'), if_neg (not_le.mpr h5),
    if_neg (not_lt.mpr h2), if_neg (not_lt.mpr h4), if_neg (not_lt.mpr h6)] at hemi ht2
  simp only [calculate_reducing_balance_loan] at hemi ht1 ht2
  by_cases hmz : (⌊duration * 12⌋₊ : ℕ) = 0
  · rw [if_pos hmz] at ht1
    exact absurd ht1 (by simp [LoanOutcome.totalInterestP])
  · rw [if_neg hmz] at ht1
    rw [if_neg hmz] at ht2
    rw [if_neg hmz, if_neg hmz] at hemi
    simp only [LoanOutcome.emiP, Option.some_inj] at hemi
    simp only [LoanOutcome.totalInterestP, Option.some_inj] at ht1 ht2
    subst ht1
    subst ht2
    rw [hemi]
    apply quantize2_mono
    exact interestSum_mono _ _ _ (by positivity)
      ((div_le_div_iff_of_pos_right (by norm_num)).mpr h12) _ _ _ _ (le_of_lt h1) (le_refl amount)

/-- Witness for claim C8 (amended) - the rates 49.99005 and 49.9902 on
a 100000 loan over 1 year both produce the cent-rounded EMI 10758.00,
and the reported total interest indeed does not decrease: 29095.95 at
the lower rate, 29096.07 at the higher. -/
theorem Loan.claim_C8_monotone_same_emi_witness :
    (4999005/100000 : ℚ) ≤ 499902/10000 ∧ (581919/20 : ℚ) ≤ 2909607/100 := by
  refine ⟨by norm_num, ?_⟩
  refine Loan.claim_C8_monotone_same_emi 100000 (4999005/100000) (499902/10000) 1
    (by norm_num) (by norm_num) (by norm_num) (by norm_num) (by norm_num) (by norm_num)
    (by norm_num) ?_ (581919/20) (2909607/100) ?_ ?_
  · norm_num [calculate_loan, calculate_reducing_balance_loan, buildSchedule, prepayActive,
      quantize2, interestSum, LoanOutcome.emiP]
  · norm_num [calculate_loan, calculate_reducing_balance_loan, buildSchedule, prepayActive,
      quantize2, interestSum, LoanOutcome.totalInterestP]
  · norm_num [calculate_loan, calculate_reducing_balance_loan, buildSchedule, prepayActive,
      quantize2, interestSum, LoanOutcome.totalInterestP]

/-- Counterexample for claim C8 as stated - on the valid loan
(principal 100000, duration 1 year, no prepayment) the rates
r1 = 49.990017 and r2 = 49.990018 satisfy r1 < r2, yet total_interest
drops from 29095.96 to 29095.92 because the cent-rounded EMI steps from
10757.99 to 10758.00; total interest is therefore not monotone
non-decreasing in the rate. -/
theorem Loan.claim_C8_counterexample :
    (0 : ℚ) ≤ 49990017/1000000 ∧ (49990017/1000000 : ℚ) < 49990018/1000000 ∧
    (49990018/1000000 : ℚ) ≤ 50 ∧
    (calculate_loan 100000 (49990017/1000000) 1 none none).totalInterestP =
      some (727399/25) ∧
    (calculate_loan 100000 (49990018/1000000) 1 none none).totalInterestP =
      some (727398/25) ∧
    (727398/25 : ℚ) < 727399/25 := by
  refine ⟨by norm_num, by norm_num, by norm_num, ?_, ?_, by norm_num⟩
  · norm_num [calculate_loan, calculate_reducing_balance_loan, buildSchedule, prepayActive,
      quantize2, interestSum, LoanOutcome.totalInterestP]
  · norm_num [calculate_loan, calculate_reducing_balance_loan, buildSchedule, prepayActive,
      quantize2, interestSum, LoanOutcome.totalInterestP]

/-- Claim C4 (amended) - for every valid loan input with rate exactly 0
and at least one whole scheduled month (int(duration*12) ≥ 1, which
excludes only durations below one month where the source raises an
uncaught Decimal division-by-zero), calculate_loan succeeds and the EMI
is the straight-line division principal / int(duration*12) rounded to
2 decimals; the annuity branch is not taken at zero rate. -/
theorem Loan.claim_C4_zero_rate
    (amount duration : ℚ)
    (h1 : 0 < amount) (h2 : amount ≤ 100000000)
    (h5 : 0 < duration) (h6 : duration ≤ 40) (hm : 1 ≤ ⌊duration * 12⌋₊) :
    (calculate_loan amount 0 duration none none).emiP =
      some (quantize2 (amount / (⌊duration * 12⌋₊ : ℚ))) := by
  unfold calculate_loan
  rw [if_neg (not_le.mpr h1), if_neg (by norm_num), if_neg (not_le.mpr h5),
    if_neg (not_lt.mpr h2), if_neg (by norm_num), if_neg (not_lt.mpr h6)]
  simp only [calculate_reducing_balance_loan]
  rw [if_neg (by omega), if_pos (by norm_num)]
  rfl

/-- Witness for claim C4 (amended) - at amount 1200 and duration 1 year
with rate 0, the EMI is 1200 / 12 = 100.00. -/
theorem Loan.claim_C4_zero_rate_witness :
    (calculate_loan 1200 0 1 none none).emiP = some 100 := by
  have h := Loan.claim_C4_zero_rate 1200 1 (by norm_num) (by norm_num) (by norm_num)
    (by norm_num) (by norm_num)
  rw [h]
  norm_num [quantize2]

/-- Counterexample for claim C4 as stated - duration 0.05 years passes
every validation bound (0 < 0.05 ≤ 40) and the rate is exactly 0, yet
calculate_loan does not succeed: int(0.05 * 12) = 0 months, so the
straight-line division principal / 0 raises an uncaught Decimal
division-by-zero error. -/
theorem Loan.claim_C4_counterexample :
    (0 : ℚ) < 1/20 ∧ (1/20 : ℚ) ≤ 40 ∧
    calculate_loan 1000 0 (1/20) none none = .arithmeticError := by
  refine ⟨by norm_num, by norm_num, ?_⟩
  norm_num [calculate_loan, calculate_reducing_balance_loan]

/-- Claim C2 (amended) - for every valid attendance input, when the
current percentage is below target (with target < 100; at target = 100
the source raises an uncaught ZeroDivisionError instead),
calculate_attendance returns classes_needed equal to
floor(((target * total) - (100 * attended)) / (100 - target)) + 1,
which is int(x) + 1 in the source and exceeds the ceiling exactly when
the quotient is a whole number; when the current percentage is at or
above target (with target > 0; at target = 0 and positive attendance
the can_miss division raises instead), classes_needed is 0; and the
reported percentage is the current percentage rounded to 2 places.
Attendance(60, 80, 75) indeed returns percentage 75.0 and
classes_needed 0 (see the witness). -/
theorem Attendance.claim_C2_classes_needed
    (attended total : ℤ) (target : ℚ)
    (h1 : 0 ≤ attended) (h2 : 0 < total) (h3 : attended ≤ total)
    (h4 : 0 ≤ target) (h5 : target ≤ 100) :
    (((attended : ℚ) / (total : ℚ)) * 100 < target → target < 100 →
      (calculate_attendance attended total target).classesNeededP =
        some (⌊((target * (total : ℚ)) - (100 * (attended : ℚ))) / (100 - target)⌋ + 1) ∧
      (calculate_attendance attended total target).percentageP =
        some (pyRound 2 (((attended : ℚ) / (total : ℚ)) * 100))) ∧
    (target ≤ ((attended : ℚ) / (total : ℚ)) * 100 → 0 < target →
      (calculate_attendance attended total target).classesNeededP = some 0 ∧
      (calculate_attendance attended total target).percentageP =
        some (pyRound 2 (((attended : ℚ) / (total : ℚ)) * 100))) := by
  have htQ : (0 : ℚ) < (total : ℚ) := by exact_mod_cast h2
  constructor
  · intro hlt hn
    unfold calculate_attendance
    rw [if_neg (not_lt.mpr h1), if_neg (not_le.mpr h2), if_neg (not_lt.mpr h3),
      if_neg (by push_neg; exact ⟨h4, h5⟩)]
    rw [if_neg (by
      intro hc
      have := hc.2
      linarith)]
    rw [if_pos hlt]
    rw [if_neg (by
      intro hc
      exact absurd hc.1 (not_lt.mpr (le_of_lt hlt)))]
    have hnum : (0 : ℚ) < target * (total : ℚ) - 100 * (attended : ℚ) := by
      have hx := (div_lt_iff₀ htQ).mp (by rwa [div_mul_eq_mul_div] at hlt)
      linarith
    have hq : (0 : ℚ) < ((target * (total : ℚ)) - (100 * (attended : ℚ))) / (100 - target) :=
      div_pos hnum (by linarith)
    have hfl : (0 : ℤ) ≤ ⌊((target * (total : ℚ)) - (100 * (attended : ℚ))) / (100 - target)⌋ :=
      Int.floor_nonneg.mpr (le_of_lt hq)
    constructor
    · simp only [AttendanceOutcome.classesNeededP, Option.some_inj]
      omega
    · rfl
  · intro hge ht0
    unfold calculate_attendance
    rw [if_neg (not_lt.mpr h1), if_neg (not_le.mpr h2), if_neg (not_lt.mpr h3),
      if_neg (by push_neg; exact ⟨h4, h5⟩)]
    rw [if_neg (by
      intro hc
      exact absurd hc.1 (not_lt.mpr hge))]
    rw [if_neg (not_lt.mpr hge)]
    rw [if_neg (by
      intro hc
      exact absurd hc.2 (ne_of_gt ht0))]
    exact ⟨rfl, rfl⟩

/-- Witness for claim C2 (amended) - Attendance(60, 80, 75): the
current percentage 75 is at target, so classes_needed = 0 and the
reported percentage is 75.0. -/
theorem Attendance.claim_C2_classes_needed_witness :
    (calculate_attendance 60 80 75).classesNeededP = some 0 ∧
    (calculate_attendance 60 80 75).percentageP = some 75 := by
  have h := (Attendance.claim_C2_classes_needed 60 80 75 (by norm_num) (by norm_num)
    (by norm_num) (by norm_num) (by norm_num)).2 (by norm_num) (by norm_num)
  refine ⟨h.1, ?_⟩
  rw [h.2]
  norm_num [pyRound]

/-- Counterexample for claim C2 as stated - at attended 1, total 2,
target 75 (a valid input with current percentage 50 below target) the
source returns classes_needed = 3 although
ceil(((75 * 2) - (100 * 1)) / (100 - 75)) = ceil(2) = 2 (attending the
next 2 classes already yields exactly 75 percent); and at the valid
inputs (0, 1, target 100) and (5, 10, target 0) the function does not
return at all but raises ZeroDivisionError. -/
theorem Attendance.claim_C2_counterexample :
    (calculate_attendance 1 2 75).classesNeededP = some 3 ∧
    (⌈(((75 : ℚ) * 2) - (100 * 1)) / (100 - 75)⌉ : ℤ) = 2 ∧
    (3 : ℤ) ≠ 2 ∧
    calculate_attendance 0 1 100 = .zeroDivError ∧
    calculate_attendance 5 10 0 = .zeroDivError := by
  refine ⟨?_, by norm_num, by norm_num, ?_, ?_⟩
  · norm_num [calculate_attendance, AttendanceOutcome.classesNeededP, pyRound,
      get_attendance_status_category]
  · norm_num [calculate_attendance]
  · norm_num [calculate_attendance, pyRound]

/-- Claim C5 (code bug) - the input principal 1000, rate 0, time 1,
frequency 12, monthly_contribution 100 passes every validation check of
calculate_compound_interest, yet the call does not return a result
dictionary: with rate 0 and a positive contribution the annuity factor
divides by r/n = 0 at line 83 and the float division raises an uncaught
ZeroDivisionError, contradicting the documented contract that every
failure is a typed CompoundInterestCalculationError and the spec
requirement that valid formula evaluations always complete. -/
theorem CompoundInterest.claim_C5_zero_rate_contribution_crash :
    calculate_compound_interest 1000 0 1 12 100 "end" 0 = .zeroDivError := by
  norm_num [calculate_compound_interest]

/-- Claim C6 (amended) - calculate_gpa never validates the scale
string: the value "5.0" selects the 5.0 table, and every other scale
value (supported "4.0" or not) silently selects the 4.0 grade-point
table and the 4.0 letter ladder, so an unsupported scale yields exactly
the result of scale "4.0" instead of a validation error. -/
theorem GPA.claim_C6_scale_fallback (scale : String) (hs : scale ≠ "5.0")
    (courses : List Course) :
    calculate_gpa courses scale = calculate_gpa courses "4.0" := by
  have htbl : get_grade_points scale = get_grade_points "4.0" := by
    unfold get_grade_points
    rw [if_neg hs, if_neg (by decide)]
  have hlg : ∀ g : ℚ, get_letter_grade g scale = get_letter_grade g "4.0" := by
    intro g
    unfold get_letter_grade
    rw [if_neg hs, if_neg (show ¬(("4.0" : String) = "5.0") by decide)]
  unfold calculate_gpa
  by_cases he : courses.isEmpty = true
  · rw [if_pos he, if_pos he]
  · rw [if_neg he, if_neg he, htbl]
    rcases h : courseLoop (get_grade_points "4.0") courses 0 0 with msg | pr
    · simp [h]
    · simp [h, hlg]

/-- Witness for claim C6 (amended) - the unsupported scale "3.0" on a
single A-grade 3-credit course behaves exactly like scale "4.0",
returning gpa 4.0 with letter grade A. -/
theorem GPA.claim_C6_scale_fallback_witness :
    calculate_gpa [⟨"A", 3⟩] "3.0" = calculate_gpa [⟨"A", 3⟩] "4.0" ∧
    calculate_gpa [⟨"A", 3⟩] "3.0" = .ok ⟨4, 3, "A"⟩ := by
  refine ⟨GPA.claim_C6_scale_fallback "3.0" (by decide) _, ?_⟩
  norm_num +decide [calculate_gpa, courseLoop, get_grade_points, gradeTable4, lookupGrade,
    get_letter_grade, pyRound, List.isEmpty]

/-- Counterexample for claim C6 as stated - calling calculate_gpa with
the unsupported scale "3.0" raises no validation error: it returns a
normal result computed from the 4.0 grade-point table. -/
theorem GPA.claim_C6_counterexample :
    calculate_gpa [⟨"A", 3⟩] "3.0" = .ok ⟨4, 3, "A"⟩ ∧
    get_grade_points "3.0" = gradeTable4 := by
  constructor
  · norm_num +decide [calculate_gpa, courseLoop, get_grade_points, gradeTable4, lookupGrade,
      get_letter_grade, pyRound, List.isEmpty]
  · unfold get_grade_points
    rw [if_neg (by decide)]

namespace BMI

theorem get_bmi_category_eq_spec (b : ℚ) (age : Option ℤ) (h : ¬ agePediatric age) :
    (get_bmi_category b age).category = bmiCategorySpec b := by
  unfold get_bmi_category bmiCategorySpec
  rw [if_neg h]
  split_ifs <;> first | rfl | (exfalso; simp_all) | (exfalso; simp_all; linarith)

end BMI

/-- Claim C7 (confirmed) - for every metric BMI input passing
validation (height 50-300 cm, weight 20-500 kg) with no age or gender,
the simple-mode (and detailed-mode) result carries
bmi = weight / (height in metres)^2 rounded to 2 decimals and a
category given by the lower-inclusive spec thresholds at 16, 17, 18.5,
25, 30, 35 and 40; a bmi of exactly 18.5 is Normal Weight, and
BMI(170, 70) yields bmi 24.22, Normal Weight. -/
theorem BMI.claim_C7_metric_simple :
    (∀ height weight : ℚ, 50 ≤ height → height ≤ 300 → 20 ≤ weight → weight ≤ 500 →
      ∀ (d : Bool) (res : BMIResult),
        calculate_bmi height weight none none "metric" d = .ok res →
        res.bmi = pyRound 2 (weight / (height / 100) ^ 2) ∧
        res.category = bmiCategorySpec res.bmi) ∧
    (get_bmi_category (37/2) none).category = "Normal Weight" ∧
    calculate_bmi 170 70 none none "metric" false =
      .ok ⟨2422/100, "Normal Weight", "#2ecc71"⟩ := by
  refine ⟨?_, by norm_num [get_bmi_category, agePediatric], ?_⟩
  · intro h w hh1 hh2 hw1 hw2 d res hok
    simp only [calculate_bmi] at hok
    rw [if_neg (show ¬(h ≤ 0) by linarith)] at hok
    rw [if_neg (show ¬(w ≤ 0) by linarith)] at hok
    rw [if_neg (show ¬(asciiLower "metric" ≠ "metric" ∧ asciiLower "metric" ≠ "imperial")
      by decide)] at hok
    rw [if_neg (show ¬ ageInvalid none from fun hc => hc)] at hok
    rw [if_neg (show ¬ genderInvalid none from fun hc => hc)] at hok
    simp only [if_neg (show ¬(asciiLower "metric" = "imperial") by decide)] at hok
    rw [if_neg (show ¬(h < 50 ∨ 300 < h) by push_neg; exact ⟨by linarith, by linarith⟩)] at hok
    rw [if_neg (show ¬(w < 20 ∨ 500 < w) by push_neg; exact ⟨by linarith, by linarith⟩)] at hok
    injection hok with hok
    subst hok
    exact ⟨rfl, get_bmi_category_eq_spec _ none (fun hc => hc)⟩
  · norm_num +decide [calculate_bmi, get_bmi_category, agePediatric, ageInvalid,
      genderInvalid, pyRound]

/-- Witness for claim C7 - the general metric statement applied at
height 170, weight 70 in simple mode: bmi 24.22 equals the rounded
formula value and the category matches the spec thresholds. -/
theorem BMI.claim_C7_metric_simple_witness :
    calculate_bmi 170 70 none none "metric" false =
      .ok ⟨2422/100, "Normal Weight", "#2ecc71"⟩ ∧
    (2422/100 : ℚ) = pyRound 2 (70 / ((170 : ℚ) / 100) ^ 2) ∧
    "Normal Weight" = bmiCategorySpec (2422/100) := by
  have hok := BMI.claim_C7_metric_simple.2.2
  have h := BMI.claim_C7_metric_simple.1 170 70 (by norm_num) (by norm_num) (by norm_num)
    (by norm_num) false ⟨2422/100, "Normal Weight", "#2ecc71"⟩ hok
  exact ⟨hok, h.1, h.2⟩

/-- Claim C9 (confirmed) - whenever the expression evaluation divides
by zero or produces NaN or an infinity, the result handling of
evaluate_expression returns a failure response (success false, result
None, an error message present) rather than raising; the NaN, infinity
and division-by-zero messages are pairwise distinct error conditions;
and every success response carries a value that is neither NaN nor
infinite. -/
theorem MathCalc.claim_C9_error_handling :
    (∀ (o : EvalOutcome) (prec : ℕ), badOutcome o →
      (handle_eval_result o prec).success = false ∧
      (handle_eval_result o prec).result = none ∧
      (handle_eval_result o prec).error ≠ none) ∧
    ((handle_eval_result (.value (.float .nan)) 10).error ≠
      (handle_eval_result (.value (.float .inf)) 10).error) ∧
    ((handle_eval_result (.value (.float .nan)) 10).error ≠
      (handle_eval_result .zeroDivisionError 10).error) ∧
    ((handle_eval_result (.value (.float .inf)) 10).error ≠
      (handle_eval_result .zeroDivisionError 10).error) ∧
    (∀ (o : EvalOutcome) (prec : ℕ), (handle_eval_result o prec).success = true →
      ∃ v, (handle_eval_result o prec).result = some v ∧ v.isNanOrInf = false) := by
  refine ⟨?_, by decide, by decide, by decide, ?_⟩
  · intro o prec hbad
    cases o with
    | value v =>
      cases v with
      | int n => exact absurd hbad (fun hc => hc)
      | float f =>
        cases f with
        | finite q => exact absurd hbad (fun hc => hc)
        | nan => exact ⟨rfl, rfl, by simp [handle_eval_result, create_error_response]⟩
        | inf => exact ⟨rfl, rfl, by simp [handle_eval_result, create_error_response]⟩
        | ninf => exact ⟨rfl, rfl, by simp [handle_eval_result, create_error_response]⟩
    | zeroDivisionError =>
      exact ⟨rfl, rfl, by simp [handle_eval_result, create_error_response]⟩
    | overflowError => exact absurd hbad (fun hc => hc)
    | valueError msg => exact absurd hbad (fun hc => hc)
    | syntaxError => exact absurd hbad (fun hc => hc)
    | otherError msg => exact absurd hbad (fun hc => hc)
  · intro o prec hs
    cases o with
    | value v =>
      cases v with
      | int n => exact ⟨.int n, rfl, rfl⟩
      | float f =>
        cases f with
        | finite q => exact ⟨.float (.finite (pyRound prec q)), rfl, rfl⟩
        | nan => exact absurd hs (by simp [handle_eval_result, create_error_response])
        | inf => exact absurd hs (by simp [handle_eval_result, create_error_response])
        | ninf => exact absurd hs (by simp [handle_eval_result, create_error_response])
    | zeroDivisionError =>
      exact absurd hs (by simp [handle_eval_result, create_error_response])
    | overflowError => exact absurd hs (by simp [handle_eval_result, create_error_response])
    | valueError msg => exact absurd hs (by simp [handle_eval_result, create_error_response])
    | syntaxError => exact absurd hs (by simp [handle_eval_result, create_error_response])
    | otherError msg => exact absurd hs (by simp [handle_eval_result, create_error_response])

/-- Witness for claim C9 - the failure-response property applied to
the division-by-zero outcome at precision 10. -/
theorem MathCalc.claim_C9_error_handling_witness :
    (handle_eval_result .zeroDivisionError 10).success = false ∧
    (handle_eval_result .zeroDivisionError 10).result = none ∧
    (handle_eval_result .zeroDivisionError 10).error ≠ none :=
  MathCalc.claim_C9_error_handling.1 .zeroDivisionError 10 trivial

/-- Claim C10 (confirmed) - for every BMI call that succeeds with an
age below 20 supplied, the returned category is the pediatric referral
string with its gray color, independently of the computed bmi value,
the gender, the unit system and the simple/detailed mode. -/
theorem BMI.claim_C10_pediatric
    (height weight : ℚ) (a : ℤ) (gender : Option String) (unit_system : String)
    (d : Bool) (ha : a < 20) :
    ∀ res, calculate_bmi height weight (some a) gender unit_system d = .ok res →
      res.category = "See pediatric BMI chart" ∧ res.color = "#95a5a6" := by
  intro res hok
  simp only [calculate_bmi] at hok
  split_ifs at hok with hh hw hu hage hg hhcm hwcm hhcm2 hwcm2
  all_goals
    injection hok with hok
  all_goals
    subst hok
  all_goals
    have hpos : 0 < a := by
      simp only [ageInvalid, not_or, not_lt, not_le] at hage
      omega
  all_goals
    have hped : agePediatric (some a) := ⟨by omega, ha⟩
  all_goals
    unfold get_bmi_category
  all_goals
    rw [if_pos hped]
  all_goals
    exact ⟨rfl, rfl⟩

/-- Witness for claim C10 - at height 170, weight 70, age 10, metric
simple mode, the result category is the pediatric referral string even
though the numeric bmi is 24.22. -/
theorem BMI.claim_C10_pediatric_witness :
    calculate_bmi 170 70 (some 10) none "metric" false =
      .ok ⟨2422/100, "See pediatric BMI chart", "#95a5a6"⟩ ∧
    (⟨2422/100, "See pediatric BMI chart", "#95a5a6"⟩ : BMIResult).category =
      "See pediatric BMI chart" := by
  have hok : calculate_bmi 170 70 (some 10) none "metric" false =
      .ok ⟨2422/100, "See pediatric BMI chart", "#95a5a6"⟩ := by
    norm_num +decide [calculate_bmi, get_bmi_category, agePediatric, ageInvalid,
      genderInvalid, pyRound]
  exact ⟨hok, (BMI.claim_C10_pediatric 170 70 10 none "metric" false (by norm_num)
    ⟨2422/100, "See pediatric BMI chart", "#95a5a6"⟩ hok).1⟩
